import Mathlib

/-!
Verification of the NuttX signal-mask manager (`sched/signal/sig_procmask.c`).

The two public functions, `nxsig_procmask` and `sigprocmask`, are embedded
shallowly.  A task's signal mask and pending set (`sigset_t`) are fixed-width
bit sets, modelled as natural numbers below `2 ^ 32` with the C bitwise
operators; the C complement `~s` on a 32-bit word is `(2 ^ 32 - 1) ^^^ s`.
Pointer arguments become `Option` values: `set = none` models a NULL `set`
pointer, and the boolean `osetReq` models whether `oset` is non-NULL, with the
value written through it returned as an `Option`.

The pending-signal dispatcher `nxsig_unmask_pendingsignal` is a collaborator
whose source is not part of this repository slice; it is modelled from the
spec (see its doc comment).  Effects that the C code performs through it
(signals delivered during the call) and control-flow facts (how many times the
dispatcher was invoked) are made observable fields of the result record.
-/

namespace NxSig

/-- Width of `sigset_t` in bits (NuttX uses a 32-bit word for up to 32
signals). -/
def sigsetWidth : Nat := 32

/-- The all-ones 32-bit word; `allOnes ^^^ s` is the C expression `~s` on a
`sigset_t`. -/
def allOnes : Nat := 2 ^ sigsetWidth - 1

/-- A signal set is well formed when it fits in the 32-bit `sigset_t` word. -/
def SigsetWF (s : Nat) : Prop := s < 2 ^ sigsetWidth

instance (s : Nat) : Decidable (SigsetWF s) := by
  unfold SigsetWF; infer_instance

/-- The fields of `struct tcb_s` relevant to this file: the task's signal
mask `sigprocmask` and its pending-signal set `sigpending`. -/
structure Tcb where
  sigprocmask : Nat
  sigpending : Nat
deriving Repr, DecidableEq

/-- `SIG_BLOCK` from `<signal.h>`. -/
def SIG_BLOCK : Int := 1

/-- `SIG_UNBLOCK` from `<signal.h>`. -/
def SIG_UNBLOCK : Int := 2

/-- `SIG_SETMASK` from `<signal.h>`. -/
def SIG_SETMASK : Int := 3

/-- `EINVAL` from `<errno.h>`. -/
def EINVAL : Int := 22

/-- `OK` (zero) from the NuttX return-value convention. -/
def OK : Int := 0

/-- `ERROR` (minus one) from the NuttX return-value convention. -/
def ERROR : Int := -1

/-- Modelled from the spec: the Pending-Signal Dispatcher
`nxsig_unmask_pendingsignal`, whose source file is not part of this
repository slice.  Per the spec it is "given the task's current mask and
pending set, delivers (synchronously, before returning control) any pending
signal not in the mask", clearing delivered entries from the pending set.
Returns the updated TCB together with the bit set of signals delivered. -/
def nxsig_unmask_pendingsignal (tcb : Tcb) : Tcb × Nat :=
  let delivered := tcb.sigpending &&& (allOnes ^^^ tcb.sigprocmask)
  ({ tcb with sigpending := tcb.sigpending &&& tcb.sigprocmask }, delivered)

/-- Observable outcome of one call to `nxsig_procmask`: the task state after
the call, the value written through `oset` (when requested), the returned
code, how many times the pending-signal dispatcher ran during the call, and
the bit set of signals it delivered before the call returned. -/
structure ProcmaskResult where
  tcb : Tcb
  oset : Option Nat
  ret : Int
  dispatchCount : Nat
  delivered : Nat
deriving Repr, DecidableEq

/-- Shallow embedding of `nxsig_procmask` (sig_procmask.c:104-171).
`how` is the `int` mode selector; `set = some s` models a non-NULL `set`
pointing at the word `s`; `osetReq` models `oset != NULL`.  The C `switch`
on `how` becomes an `if` chain over the same constants; the scheduler lock
and critical section bracket the same straight-line sequence and have no
further observable effect in this single-task embedding. -/
def nxsig_procmask (how : Int) (set : Option Nat) (osetReq : Bool)
    (rtcb : Tcb) : ProcmaskResult :=
  let oldsigprocmask := rtcb.sigprocmask
  let osetOut := if osetReq then some oldsigprocmask else none
  match set with
  | none => ⟨rtcb, osetOut, OK, 0, 0⟩
  | some s =>
    let (rtcb1, ret) :=
      if how = SIG_BLOCK then
        ({ rtcb with sigprocmask := rtcb.sigprocmask ||| s }, OK)
      else if how = SIG_UNBLOCK then
        ({ rtcb with sigprocmask := rtcb.sigprocmask &&& (allOnes ^^^ s) }, OK)
      else if how = SIG_SETMASK then
        ({ rtcb with sigprocmask := s }, OK)
      else
        (rtcb, -EINVAL)
    let (rtcb2, delivered) := nxsig_unmask_pendingsignal rtcb1
    ⟨rtcb2, osetOut, ret, 1, delivered⟩

/-- Observable outcome of one call to the process-facing `sigprocmask`:
everything `nxsig_procmask` yields, plus the process errno after the call. -/
structure SigprocmaskResult where
  tcb : Tcb
  oset : Option Nat
  ret : Int
  errno : Int
  dispatchCount : Nat
  delivered : Nat
deriving Repr, DecidableEq

/-- Shallow embedding of `sigprocmask` (sig_procmask.c:206-220).  `errno0`
is the process errno on entry; the result carries the errno after the call,
which the C code touches only on the failure path. -/
def sigprocmask (how : Int) (set : Option Nat) (osetReq : Bool)
    (rtcb : Tcb) (errno0 : Int) : SigprocmaskResult :=
  let r := nxsig_procmask how set osetReq rtcb
  if r.ret < 0 then
    ⟨r.tcb, r.oset, ERROR, -r.ret, r.dispatchCount, r.delivered⟩
  else
    ⟨r.tcb, r.oset, r.ret, errno0, r.dispatchCount, r.delivered⟩

/-! ### Helper lemmas -/

theorem testBit_allOnes (n : Nat) : allOnes.testBit n = decide (n < sigsetWidth) :=
  Nat.testBit_two_pow_sub_one sigsetWidth n

theorem testBit_of_wf_high {s n : Nat} (hs : SigsetWF s) (hn : sigsetWidth ≤ n) :
    s.testBit n = false :=
  Nat.testBit_lt_two_pow (lt_of_lt_of_le hs (Nat.pow_le_pow_right (by norm_num) hn))

/-- Evaluation of `nxsig_procmask` on a supplied set: the mask mutation is
selected by `how`, the old-mask capture is independent of `how`, the
dispatcher runs exactly once on the mutated state, and the return code is
`OK` exactly for the three valid modes. -/
theorem nxsig_procmask_some_eq (how : Int) (s : Nat) (o : Bool) (t : Tcb) :
    nxsig_procmask how (some s) o t =
      (let rtcb1 : Tcb :=
        if how = SIG_BLOCK then { t with sigprocmask := t.sigprocmask ||| s }
        else if how = SIG_UNBLOCK then
          { t with sigprocmask := t.sigprocmask &&& (allOnes ^^^ s) }
        else if how = SIG_SETMASK then { t with sigprocmask := s }
        else t
      ⟨(nxsig_unmask_pendingsignal rtcb1).1,
        if o then some t.sigprocmask else none,
        if how = SIG_BLOCK ∨ how = SIG_UNBLOCK ∨ how = SIG_SETMASK then OK
          else -EINVAL,
        1, (nxsig_unmask_pendingsignal rtcb1).2⟩) := by
  by_cases h1 : how = SIG_BLOCK <;> by_cases h2 : how = SIG_UNBLOCK <;>
    by_cases h3 : how = SIG_SETMASK <;>
      simp only [SIG_BLOCK, SIG_UNBLOCK, SIG_SETMASK] at h1 h2 h3 <;>
        simp [nxsig_procmask, SIG_BLOCK, SIG_UNBLOCK, SIG_SETMASK, h1, h2, h3]

theorem nxsig_procmask_none_eq (how : Int) (o : Bool) (t : Tcb) :
    nxsig_procmask how none o t =
      ⟨t, if o then some t.sigprocmask else none, OK, 0, 0⟩ := rfl

/-- The internal operation returns either `OK` or `-EINVAL`. -/
theorem nxsig_procmask_ret_cases (how : Int) (set : Option Nat) (o : Bool)
    (t : Tcb) :
    (nxsig_procmask how set o t).ret = OK ∨
      (nxsig_procmask how set o t).ret = -EINVAL := by
  cases set with
  | none => exact Or.inl rfl
  | some s =>
    rw [nxsig_procmask_some_eq]
    by_cases h : how = SIG_BLOCK ∨ how = SIG_UNBLOCK ∨ how = SIG_SETMASK <;>
      simp [h]

theorem unmask_preserves_mask (t : Tcb) :
    (nxsig_unmask_pendingsignal t).1.sigprocmask = t.sigprocmask := rfl

/-! ### Claim theorems -/

/-- C1: for every initial mask M and supplied set S, `nxsig_procmask`
updates the calling task's mask per the mode: after `SIG_BLOCK` the mask is
M ∪ S, after `SIG_UNBLOCK` it is M ∩ ¬S, and after `SIG_SETMASK` it is S
exactly (membership stated bitwise over the 32-bit `sigset_t` word). -/
theorem nxsig_procmask_mode_laws (M S P : Nat) (o : Bool)
    (hM : SigsetWF M) (hS : SigsetWF S) :
    (∀ n, (nxsig_procmask SIG_BLOCK (some S) o ⟨M, P⟩).tcb.sigprocmask.testBit n
        = (M.testBit n || S.testBit n)) ∧
    (∀ n, (nxsig_procmask SIG_UNBLOCK (some S) o ⟨M, P⟩).tcb.sigprocmask.testBit n
        = (M.testBit n && !S.testBit n)) ∧
    (nxsig_procmask SIG_SETMASK (some S) o ⟨M, P⟩).tcb.sigprocmask = S := by
  refine ⟨fun n => ?_, fun n => ?_, rfl⟩
  · show (M ||| S).testBit n = (M.testBit n || S.testBit n)
    exact Nat.testBit_lor M S n
  · show (M &&& (allOnes ^^^ S)).testBit n = (M.testBit n && !S.testBit n)
    rw [Nat.testBit_land, Nat.testBit_xor, testBit_allOnes]
    by_cases hn : n < sigsetWidth
    · simp [hn]
    · have hn' := le_of_not_lt hn
      simp [hn, testBit_of_wf_high hM hn', testBit_of_wf_high hS hn']

/-- Witness for C1 at M = 5, S = 3. -/
theorem nxsig_procmask_mode_laws_witness :
    (nxsig_procmask SIG_SETMASK (some 3) true ⟨5, 0⟩).tcb.sigprocmask = 3 :=
  (nxsig_procmask_mode_laws 5 3 0 true (by decide) (by decide)).2.2

/-- C2: for every initial mask M, supplied set S, and mode outside
`{SIG_BLOCK, SIG_UNBLOCK, SIG_SETMASK}`, `nxsig_procmask` returns `-EINVAL`
and leaves the task's mask equal to M. -/
theorem nxsig_procmask_invalid_mode (how : Int) (S M P : Nat) (o : Bool)
    (h1 : how ≠ SIG_BLOCK) (h2 : how ≠ SIG_UNBLOCK) (h3 : how ≠ SIG_SETMASK) :
    (nxsig_procmask how (some S) o ⟨M, P⟩).ret = -EINVAL ∧
    (nxsig_procmask how (some S) o ⟨M, P⟩).tcb.sigprocmask = M := by
  rw [nxsig_procmask_some_eq]
  simp [h1, h2, h3, unmask_preserves_mask]

/-- Witness for C2 at mode 99. -/
theorem nxsig_procmask_invalid_mode_witness :
    (nxsig_procmask 99 (some 3) true ⟨5, 0⟩).ret = -EINVAL ∧
    (nxsig_procmask 99 (some 3) true ⟨5, 0⟩).tcb.sigprocmask = 5 :=
  nxsig_procmask_invalid_mode 99 3 5 0 true (by decide) (by decide) (by decide)

/-- C4: whenever the old-mask output location is supplied, the value written
to it is the task's mask as it was immediately before the call, for every
mode and whether or not a new set was supplied. -/
theorem nxsig_procmask_oset_capture (how : Int) (set : Option Nat) (M P : Nat) :
    (nxsig_procmask how set true ⟨M, P⟩).oset = some M := by
  cases set with
  | none => rfl
  | some s =>
    rw [nxsig_procmask_some_eq]
    simp

/-- C5: whenever a new set is supplied, the pending-signal dispatcher runs
exactly once before the call returns, including for invalid modes; with no
new set supplied it does not run. -/
theorem nxsig_procmask_dispatch_once (how : Int) (o : Bool) (t : Tcb) :
    (∀ s, (nxsig_procmask how (some s) o t).dispatchCount = 1) ∧
    (nxsig_procmask how none o t).dispatchCount = 0 := by
  refine ⟨fun s => ?_, rfl⟩
  rw [nxsig_procmask_some_eq]

/-- C6: with no new set supplied (`set == NULL`), the call mutates nothing
and returns success, for every mode value — a pure query. -/
theorem nxsig_procmask_null_set_query (how : Int) (o : Bool) (t : Tcb) :
    (nxsig_procmask how none o t).tcb = t ∧
    (nxsig_procmask how none o t).ret = OK :=
  ⟨rfl, rfl⟩

/-- C3: a signal N pending for the task that a call unblocks (the supplied
set contains N, mode `SIG_UNBLOCK`) is delivered before the call returns and
is no longer pending afterwards; conversely, blocking an already-pending N
does not deliver it and leaves it pending.  (Delivery is by the
spec-modelled pending-signal dispatcher.) -/
theorem nxsig_procmask_delivery (M P S N : Nat) (o : Bool)
    (hN : N < sigsetWidth) (hpend : P.testBit N = true)
    (hSN : S.testBit N = true) :
    ((nxsig_procmask SIG_UNBLOCK (some S) o ⟨M, P⟩).delivered.testBit N = true ∧
     (nxsig_procmask SIG_UNBLOCK (some S) o ⟨M, P⟩).tcb.sigpending.testBit N
       = false) ∧
    ((nxsig_procmask SIG_BLOCK (some S) o ⟨M, P⟩).delivered.testBit N = false ∧
     (nxsig_procmask SIG_BLOCK (some S) o ⟨M, P⟩).tcb.sigpending.testBit N
       = true) := by
  have hmask1 : (M &&& (allOnes ^^^ S)).testBit N = false := by
    rw [Nat.testBit_land, Nat.testBit_xor, testBit_allOnes]
    simp [hN, hSN]
  refine ⟨⟨?_, ?_⟩, ?_, ?_⟩
  · show (P &&& (allOnes ^^^ (M &&& (allOnes ^^^ S)))).testBit N = true
    rw [Nat.testBit_land, Nat.testBit_xor, testBit_allOnes]
    simp [hN, hpend, hmask1]
  · show (P &&& (M &&& (allOnes ^^^ S))).testBit N = false
    rw [Nat.testBit_land]
    simp [hmask1]
  · show (P &&& (allOnes ^^^ (M ||| S))).testBit N = false
    rw [Nat.testBit_land, Nat.testBit_xor, testBit_allOnes, Nat.testBit_lor]
    simp [hN, hSN]
  · show (P &&& (M ||| S)).testBit N = true
    rw [Nat.testBit_land, Nat.testBit_lor]
    simp [hpend, hSN]

/-- Witness for C3 at N = 5 with mask, pending and supplied set all {5}. -/
theorem nxsig_procmask_delivery_witness :
    (nxsig_procmask SIG_UNBLOCK (some 32) false ⟨32, 32⟩).delivered.testBit 5
      = true ∧
    (nxsig_procmask SIG_UNBLOCK (some 32) false ⟨32, 32⟩).tcb.sigpending.testBit 5
      = false :=
  (nxsig_procmask_delivery 32 32 32 5 false (by decide) (by decide)
    (by decide)).1

/-- C7: the process-facing `sigprocmask` returns 0 exactly when the internal
`nxsig_procmask` succeeds; on any internal failure it returns `ERROR` (-1)
with errno set to `EINVAL`. -/
theorem sigprocmask_boundary (how : Int) (set : Option Nat) (o : Bool)
    (t : Tcb) (e : Int) :
    ((sigprocmask how set o t e).ret = 0 ↔
      (nxsig_procmask how set o t).ret = 0) ∧
    ((nxsig_procmask how set o t).ret ≠ 0 →
      (sigprocmask how set o t e).ret = ERROR ∧
      (sigprocmask how set o t e).errno = EINVAL) := by
  rcases nxsig_procmask_ret_cases how set o t with hr | hr <;>
    simp [sigprocmask, hr, OK, ERROR, EINVAL]

/-- Witness for C7 at the invalid mode 99: the failure conjunct applied at a
concrete failing input. -/
theorem sigprocmask_boundary_witness :
    (sigprocmask 99 (some 5) false ⟨0, 0⟩ 0).ret = ERROR ∧
    (sigprocmask 99 (some 5) false ⟨0, 0⟩ 0).errno = EINVAL :=
  (sigprocmask_boundary 99 (some 5) false ⟨0, 0⟩ 0).2 (by decide)

/-- C8: for a set S disjoint from the initial mask M, `SIG_BLOCK` with S
followed immediately by `SIG_UNBLOCK` with S restores the mask to M. -/
theorem nxsig_procmask_block_unblock_inverse (M S P : Nat) (o1 o2 : Bool)
    (hM : SigsetWF M) (hS : SigsetWF S) (hdisj : M &&& S = 0) :
    (nxsig_procmask SIG_UNBLOCK (some S) o2
      (nxsig_procmask SIG_BLOCK (some S) o1 ⟨M, P⟩).tcb).tcb.sigprocmask
      = M := by
  show (M ||| S) &&& (allOnes ^^^ S) = M
  apply Nat.eq_of_testBit_eq
  intro n
  have hd : ¬(M.testBit n = true ∧ S.testBit n = true) := by
    rintro ⟨hMn, hSn⟩
    have h0 : (M &&& S).testBit n = Nat.testBit 0 n := by rw [hdisj]
    rw [Nat.testBit_land, hMn, hSn, Nat.zero_testBit] at h0
    simp at h0
  rw [Nat.testBit_land, Nat.testBit_lor, Nat.testBit_xor, testBit_allOnes]
  by_cases hn : n < sigsetWidth
  · cases hMn : M.testBit n <;> cases hSn : S.testBit n <;> simp_all [hn]
  · have hn' := le_of_not_lt hn
    simp [hn, testBit_of_wf_high hM hn', testBit_of_wf_high hS hn']

/-- Witness for C8 at M = 5, S = 2 (disjoint). -/
theorem nxsig_procmask_block_unblock_inverse_witness :
    (nxsig_procmask SIG_UNBLOCK (some 2) true
      (nxsig_procmask SIG_BLOCK (some 2) true ⟨5, 0⟩).tcb).tcb.sigprocmask
      = 5 :=
  nxsig_procmask_block_unblock_inverse 5 2 0 true true (by decide) (by decide)
    (by decide)

/-- C9: with `set == NULL` the mode argument is never validated: a mode
outside `{SIG_BLOCK, SIG_UNBLOCK, SIG_SETMASK}` still returns `OK`, whereas
the same mode with a supplied set returns `-EINVAL`. -/
theorem nxsig_procmask_mode_unvalidated_when_null (how : Int) (o : Bool)
    (t : Tcb) (s : Nat)
    (h1 : how ≠ SIG_BLOCK) (h2 : how ≠ SIG_UNBLOCK) (h3 : how ≠ SIG_SETMASK) :
    (nxsig_procmask how none o t).ret = OK ∧
    (nxsig_procmask how (some s) o t).ret = -EINVAL := by
  refine ⟨rfl, ?_⟩
  rw [nxsig_procmask_some_eq]
  simp [h1, h2, h3]

/-- Witness for C9 at mode 99. -/
theorem nxsig_procmask_mode_unvalidated_when_null_witness :
    (nxsig_procmask 99 none true ⟨5, 0⟩).ret = OK ∧
    (nxsig_procmask 99 (some 3) true ⟨5, 0⟩).ret = -EINVAL :=
  nxsig_procmask_mode_unvalidated_when_null 99 true ⟨5, 0⟩ 3 (by decide)
    (by decide) (by decide)

/-- C10: whenever the internal `nxsig_procmask` succeeds (non-negative
return), `sigprocmask` leaves the process errno unchanged. -/
theorem sigprocmask_errno_frame (how : Int) (set : Option Nat) (o : Bool)
    (t : Tcb) (e : Int)
    (hs : 0 ≤ (nxsig_procmask how set o t).ret) :
    (sigprocmask how set o t e).errno = e := by
  have hnot : ¬((nxsig_procmask how set o t).ret < 0) := not_lt.mpr hs
  simp [sigprocmask, hnot]

/-- Witness for C10 at a successful query call with errno 7. -/
theorem sigprocmask_errno_frame_witness :
    (sigprocmask SIG_SETMASK none true ⟨5, 0⟩ 7).errno = 7 :=
  sigprocmask_errno_frame SIG_SETMASK none true ⟨5, 0⟩ 7 (by decide)

end NxSig
